import Mathlib

/-!
Shallow embedding of `src/main.c` of the Select-String wrapper.

The program is a Windows C wrapper: it never matches lines itself. It
checks `argv[1]` for help/version flags, verifies PowerShell is on the
PATH, builds a single command line forwarding every argument to
PowerShell's `Select-String`, captures piped stdin into a temporary file
when stdin is not a TTY, runs the command with `_popen`, streams the
child's output to stdout (flushing after each line), and returns the
child's exit status from `_pclose`.

The embedding models one run of `main` as a pure function of an
environment `Env` that fixes every outcome of the surrounding system
(whether stdin is a TTY, whether PowerShell is available, whether the
temporary-file calls succeed, the child's output lines and exit status,
and at which output line `printf` first fails, if any).  The observable
behaviour is a `RunResult`: the ordered list of stream events (stdout
writes, stderr writes, stdout flushes), the exit code of `main`, the
command string handed to `_popen` (if reached), whether stdin was
consumed, and whether the temporary file was created / removed.
-/

namespace SelectString

/-- `EXIT_SUCCESS` of `<stdlib.h>` (value 0). -/
def EXIT_SUCCESS : Int := 0

/-- `EXIT_FAILURE` of `<stdlib.h>` (value 1 on this platform, as in every
mainstream C library). `main.c` returns it on every error path. -/
def EXIT_FAILURE : Int := 1

/-- `#define COMMAND_SIZE 32768` (main.c line 15): capacity of the command
buffer, including the terminating NUL. -/
def COMMAND_SIZE : Nat := 32768

/-- `#define PROGRAM_NAME "Select-String"` (main.c line 16). -/
def PROGRAM_NAME : String := "Select-String"

/-- `#define VERSION "1.0.0"` (main.c line 17). -/
def VERSION : String := "1.0.0"

/-- One observable I/O event of a run: a write to stdout (`printf`), a
write to stderr (`fprintf(stderr, ...)`), or a flush of stdout
(`fflush(stdout)`). -/
inductive Event where
  | out (s : String)
  | errOut (s : String)
  | flush
deriving DecidableEq, Repr

/-- Outcome of the stdin-to-temp-file copy loop (main.c lines 164-188):
it either completes, or an `fwrite` comes up short, or `ferror(stdin)`
reports a read error after the loop. -/
inductive CopyOutcome where
  | ok
  | writeFail
  | readFail
deriving DecidableEq, Repr

/-- Everything the C program observes from its surroundings in one run.
`stdinPiped` is `!_isatty(_fileno(stdin))`; `psAvailable` the result of
`check_powershell_available`; `tempnamOk`/`tempPath` the outcome of
`_tempnam`; `fopenOk` whether the temp file opens; `copyOutcome` the
stdin copy loop; `spawnOk` whether `_popen` returns non-NULL;
`childLines` the lines `fgets` reads from the child; `stdoutFailAt`
the index of the first child line whose `printf` fails (if any);
`childReadErr` whether `ferror(pipe)` is set after the read loop;
`childExit` the status `_pclose` returns. -/
structure Env where
  progName : String
  args : List String
  stdinPiped : Bool
  psAvailable : Bool
  tempnamOk : Bool
  tempPath : String
  fopenOk : Bool
  copyOutcome : CopyOutcome
  spawnOk : Bool
  childLines : List String
  stdoutFailAt : Option Nat
  childReadErr : Bool
  childExit : Int
deriving DecidableEq, Repr

/-- The observable outcome of a run of `main`: the ordered stream events,
the value `main` returns, the command string passed to `_popen` (none when
`_popen` is never called), whether the stdin copy loop ran, whether the
temporary file was created (`fopen` of the `_tempnam` path succeeded) and
whether `remove` was called on it. -/
structure RunResult where
  events : List Event
  exitCode : Int
  popenCmd : Option String
  stdinConsumed : Bool
  tempCreated : Bool
  tempRemoved : Bool
deriving DecidableEq, Repr

/-- The six `fprintf(stderr, ...)` lines of `print_usage` (main.c lines
19-26). -/
def usageEvents (progName : String) : List Event :=
  [Event.errOut ("Usage: " ++ progName ++ " [PowerShell Select-String arguments]\n"),
   Event.errOut "Wrapper for PowerShell's Select-String command.\n",
   Event.errOut "\nExamples:\n",
   Event.errOut ("  echo \"hello world\" | " ++ progName ++ " \"hello\"\n"),
   Event.errOut ("  " ++ progName ++ " \"pattern\" -Path *.txt\n"),
   Event.errOut ("  " ++ progName ++ " \"error\" file.log\n")]

/-- The `printf` line of `print_version` (main.c lines 28-30); it goes to
stdout. -/
def versionLine : String :=
  PROGRAM_NAME ++ " version " ++ VERSION ++ " (PowerShell wrapper)\n"

/-- The seven `fprintf(stderr, ...)` lines printed when
`check_powershell_available` fails (main.c lines 62-68). -/
def psMissingEvents : List Event :=
  [Event.errOut "Error: PowerShell not found in PATH\n",
   Event.errOut "\n",
   Event.errOut "This program requires PowerShell to be installed and available in your PATH.\n",
   Event.errOut "Please ensure PowerShell is installed and accessible from the command line.\n",
   Event.errOut "\n",
   Event.errOut "To verify PowerShell installation, try running:\n",
   Event.errOut "  powershell.exe -Command \"$PSVersionTable.PSVersion\"\n"]

/-- The command stem used when stdin is piped (main.c lines 82-83): the
C literal escapes `\\` to one backslash and `\"` to a double quote. -/
def pipedHead : String :=
  "powershell.exe -NoProfile -Command \"$input | Microsoft.PowerShell.Utility\\Select-String"

/-- The command stem used when stdin is not piped (main.c lines 86-87). -/
def directHead : String :=
  "powershell.exe -NoProfile -Command \"Microsoft.PowerShell.Utility\\Select-String"

/-- The command stem after stdin was saved to the temp file (main.c lines
193-195): `Get-Content -Raw '<tempPath>' | ... Select-String`. -/
def tempHead (tempPath : String) : String :=
  "powershell.exe -NoProfile -Command \"Get-Content -Raw '" ++ tempPath ++
    "' | Microsoft.PowerShell.Utility\\Select-String"

/-- How one argument is appended to the command (main.c lines 105-117 and
identically 216-223): wrapped in single quotes when it contains a space
(`strchr(arg, ' ')`), otherwise bare; either way preceded by one space and
copied verbatim, with no escaping of any character inside it. -/
def quoteArg (arg : String) : String :=
  if arg.data.contains ' ' then " '" ++ arg ++ "'" else " " ++ arg

/-- The argument-append loop (main.c lines 103-131, repeated verbatim at
215-241): each `snprintf` of a piece fails the bound check when
`written >= COMMAND_SIZE - cmd_len`, in which case main returns
`EXIT_FAILURE`; otherwise the piece is appended and the length grows.
`none` models the overflow return. -/
def appendArgs (cmd : String) : List String → Option String
  | [] => some cmd
  | arg :: rest =>
    let piece := quoteArg arg
    if COMMAND_SIZE - cmd.length ≤ piece.length then none
    else appendArgs (cmd ++ piece) rest

/-- Building one full command line: the stem (checked against
`COMMAND_SIZE`, main.c lines 91-99 / 198-211), the argument loop, and the
closing double quote (main.c lines 134-143 / 244-257). -/
def buildCommand (stem : String) (args : List String) : Option String :=
  if COMMAND_SIZE ≤ stem.length then none
  else
    match appendArgs stem args with
    | none => none
    | some cmd =>
      if COMMAND_SIZE - cmd.length ≤ 1 then none
      else some (cmd ++ "\"")

/-- The concatenation of the per-argument pieces, the closed form of the
append loop when no bound check fires. -/
def joinQuoted : List String → String
  | [] => ""
  | arg :: rest => quoteArg arg ++ joinQuoted rest

/-- The stdout read-print loop (main.c lines 272-284): `fgets` one child
line, `printf` it, `fflush(stdout)`; when the `printf` of the line at
index `failAt` fails, print the stderr diagnostic and stop (main returns
`EXIT_FAILURE`).  Returns the events of the loop and whether a write
failure occurred. -/
def outputLoop : List String → Option Nat → List Event × Bool
  | [], _ => ([], false)
  | _ :: _, some 0 =>
    ([Event.errOut "Error: Failed to write output to stdout\n"], true)
  | l :: ls, some (n + 1) =>
    let r := outputLoop ls (some n)
    (Event.out l :: Event.flush :: r.1, r.2)
  | l :: ls, none =>
    let r := outputLoop ls none
    (Event.out l :: Event.flush :: r.1, r.2)

/-- The run from `_popen` onwards (main.c lines 260-306): spawn failure,
the output loop, the `ferror(pipe)` check, and the final
`exit_code = _pclose(pipe)`; every one of these paths removes the temp
file when one was made (`if (temp_file) { remove; free; }`). `hasTemp`
records whether the piped-stdin branch created the temp file. -/
def spawnPhase (env : Env) (cmd : String) (hasTemp : Bool) : RunResult :=
  if !env.spawnOk then
    { events := [Event.errOut "Error: Failed to execute PowerShell\n"],
      exitCode := EXIT_FAILURE, popenCmd := some cmd, stdinConsumed := hasTemp,
      tempCreated := hasTemp, tempRemoved := hasTemp }
  else if (outputLoop env.childLines env.stdoutFailAt).2 then
    { events := (outputLoop env.childLines env.stdoutFailAt).1,
      exitCode := EXIT_FAILURE, popenCmd := some cmd,
      stdinConsumed := hasTemp, tempCreated := hasTemp, tempRemoved := hasTemp }
  else if env.childReadErr then
    { events := (outputLoop env.childLines env.stdoutFailAt).1 ++
        [Event.errOut "Error: Failed to read output from PowerShell\n"],
      exitCode := EXIT_FAILURE, popenCmd := some cmd, stdinConsumed := hasTemp,
      tempCreated := hasTemp, tempRemoved := hasTemp }
  else
    { events := (outputLoop env.childLines env.stdoutFailAt).1,
      exitCode := env.childExit, popenCmd := some cmd,
      stdinConsumed := hasTemp, tempCreated := hasTemp, tempRemoved := hasTemp }

/-- The piped-stdin branch (main.c lines 148-258): `_tempnam`, `fopen`,
the stdin copy loop, the command rebuild with `Get-Content -Raw`, and then
the spawn phase.  `tempCreated` becomes true exactly when `fopen`
succeeds; every later error path calls `remove(temp_file)`.  The
diagnostic texts are the first `fprintf` of each error site (the sites
that print a second detail line with lengths or byte counts are modelled
by their fixed format text, since the numbers do not reach any stream but
stderr). -/
def pipedStage (env : Env) : RunResult :=
  if !env.tempnamOk then
    { events := [Event.errOut "Error: Failed to create temporary file\n"],
      exitCode := EXIT_FAILURE, popenCmd := none, stdinConsumed := false,
      tempCreated := false, tempRemoved := false }
  else if !env.fopenOk then
    { events := [Event.errOut "Error: Failed to open temporary file\n"],
      exitCode := EXIT_FAILURE, popenCmd := none, stdinConsumed := false,
      tempCreated := false, tempRemoved := false }
  else
    match env.copyOutcome with
    | CopyOutcome.writeFail =>
      { events := [Event.errOut "Error: Failed to write data to temporary file\n",
                   Event.errOut "Attempted to write %zu bytes, only wrote %zu bytes\n"],
        exitCode := EXIT_FAILURE, popenCmd := none, stdinConsumed := true,
        tempCreated := true, tempRemoved := true }
    | CopyOutcome.readFail =>
      { events := [Event.errOut "Error: Failed to read from stdin\n"],
        exitCode := EXIT_FAILURE, popenCmd := none, stdinConsumed := true,
        tempCreated := true, tempRemoved := true }
    | CopyOutcome.ok =>
      match buildCommand (tempHead env.tempPath) env.args with
      | none =>
        { events := [Event.errOut "Error: Command string too long in rebuild\n"],
          exitCode := EXIT_FAILURE, popenCmd := none, stdinConsumed := true,
          tempCreated := true, tempRemoved := true }
      | some cmd => spawnPhase env cmd true

/-- One run of `main` (main.c lines 43-306).  In order: the `argc < 2`
usage check (returns `EXIT_FAILURE`), the `argv[1]` comparisons against
`--help`/`-h` and `--version`/`-v` (return `EXIT_SUCCESS`), the
PowerShell availability check, the first command build (stem chosen by
`_isatty`), then the piped-stdin branch or, directly, the spawn phase. -/
def run (env : Env) : RunResult :=
  match env.args with
  | [] =>
    { events := usageEvents env.progName, exitCode := EXIT_FAILURE,
      popenCmd := none, stdinConsumed := false, tempCreated := false,
      tempRemoved := false }
  | a1 :: _ =>
    if a1 = "--help" ∨ a1 = "-h" then
      { events := usageEvents env.progName, exitCode := EXIT_SUCCESS,
        popenCmd := none, stdinConsumed := false, tempCreated := false,
        tempRemoved := false }
    else if a1 = "--version" ∨ a1 = "-v" then
      { events := [Event.out versionLine], exitCode := EXIT_SUCCESS,
        popenCmd := none, stdinConsumed := false, tempCreated := false,
        tempRemoved := false }
    else if !env.psAvailable then
      { events := psMissingEvents, exitCode := EXIT_FAILURE, popenCmd := none,
        stdinConsumed := false, tempCreated := false, tempRemoved := false }
    else
      match buildCommand (if env.stdinPiped then pipedHead else directHead) env.args with
      | none =>
        { events := [Event.errOut "Error: Command string too long\n"],
          exitCode := EXIT_FAILURE, popenCmd := none, stdinConsumed := false,
          tempCreated := false, tempRemoved := false }
      | some cmd0 =>
        if env.stdinPiped then pipedStage env else spawnPhase env cmd0 false

/-- Whether an event is a write to the error stream. -/
def isErrOut : Event → Bool
  | Event.errOut _ => true
  | _ => false

/-- The number of stdout line writes in an event list. -/
def countOut : List Event → Nat
  | [] => 0
  | Event.out _ :: rest => countOut rest + 1
  | _ :: rest => countOut rest

/-- Whether every stdout line write is immediately followed by a flush of
stdout. -/
def flushedStream : List Event → Bool
  | [] => true
  | Event.out _ :: Event.flush :: rest => flushedStream rest
  | Event.out _ :: _ => false
  | _ :: rest => flushedStream rest

/-- The four strings `main` recognises specially in `argv[1]` (main.c
lines 50-58). -/
def specialArg (s : String) : Bool :=
  s = "--help" || s = "-h" || s = "--version" || s = "-v"

/-- Whether a run gets as far as calling `_popen`: some argument is given,
`argv[1]` is none of the four special flags, PowerShell is available, the
first command build fits, and, when stdin is piped, the temp-file capture
and the command rebuild all succeed. -/
def reachesSpawn (env : Env) : Bool :=
  match env.args with
  | [] => false
  | a1 :: _ =>
    !specialArg a1 && env.psAvailable &&
      (buildCommand (if env.stdinPiped then pipedHead else directHead) env.args).isSome &&
      (!env.stdinPiped ||
        (env.tempnamOk && env.fopenOk && decide (env.copyOutcome = CopyOutcome.ok) &&
          (buildCommand (tempHead env.tempPath) env.args).isSome)) &&
      env.spawnOk

/-- Concrete run: no arguments at all (`argc < 2`), so the usage path. -/
def envUsage : Env :=
  { progName := "Select-String", args := [], stdinPiped := false,
    psAvailable := true, tempnamOk := true, tempPath := "C:\\Temp\\ss_1",
    fopenOk := true, copyOutcome := CopyOutcome.ok, spawnOk := true,
    childLines := [], stdoutFailAt := none, childReadErr := false,
    childExit := 0 }

/-- Concrete run: `-v` as the first argument (with a pattern after it). -/
def envVersion : Env :=
  { progName := "Select-String", args := ["-v", "pat"], stdinPiped := false,
    psAvailable := true, tempnamOk := true, tempPath := "C:\\Temp\\ss_1",
    fopenOk := true, copyOutcome := CopyOutcome.ok, spawnOk := true,
    childLines := [], stdoutFailAt := none, childReadErr := false,
    childExit := 0 }

/-- Concrete run: a pattern and an argument with a space, stdin a TTY,
PowerShell present, one line of child output, no failures. -/
def envPlain : Env :=
  { progName := "Select-String", args := ["pat", "a b"], stdinPiped := false,
    psAvailable := true, tempnamOk := true, tempPath := "C:\\Temp\\ss_1",
    fopenOk := true, copyOutcome := CopyOutcome.ok, spawnOk := true,
    childLines := ["file.txt:3:a match\n"], stdoutFailAt := none,
    childReadErr := false, childExit := 0 }

/-- Concrete run: a pattern and a file path while stdin is also piped;
the temp-file capture succeeds. -/
def envPiped : Env :=
  { progName := "Select-String", args := ["pat", "file.txt"], stdinPiped := true,
    psAvailable := true, tempnamOk := true, tempPath := "C:\\Temp\\ss_1",
    fopenOk := true, copyOutcome := CopyOutcome.ok, spawnOk := true,
    childLines := ["a match\n"], stdoutFailAt := none, childReadErr := false,
    childExit := 0 }

/-- Concrete run: the child produces two lines and the `printf` of the
second one fails (e.g. the downstream pipe closed). -/
def envOutFail : Env :=
  { progName := "Select-String", args := ["pat"], stdinPiped := false,
    psAvailable := true, tempnamOk := true, tempPath := "C:\\Temp\\ss_1",
    fopenOk := true, copyOutcome := CopyOutcome.ok, spawnOk := true,
    childLines := ["line one\n", "line two\n"], stdoutFailAt := some 1,
    childReadErr := false, childExit := 0 }

/-- Concrete run: `-h` in the second argument position, a pattern first. -/
def envLateFlag : Env :=
  { progName := "Select-String", args := ["pat", "-h"], stdinPiped := false,
    psAvailable := true, tempnamOk := true, tempPath := "C:\\Temp\\ss_1",
    fopenOk := true, copyOutcome := CopyOutcome.ok, spawnOk := true,
    childLines := [], stdoutFailAt := none, childReadErr := false,
    childExit := 1 }

/-! ### Closed form of the command builder -/

theorem appendArgs_some (args : List String) :
    ∀ cmd res : String, appendArgs cmd args = some res → res = cmd ++ joinQuoted args := by
  induction args with
  | nil =>
    intro cmd res h
    simp only [appendArgs, Option.some.injEq] at h
    simp [joinQuoted, ← h, String.append_empty]
  | cons a rest ih =>
    intro cmd res h
    simp only [appendArgs] at h
    split at h
    · exact absurd h (by simp)
    · rw [ih _ _ h, joinQuoted, String.append_assoc]

theorem buildCommand_some (stem : String) (args : List String) (cmd : String)
    (h : buildCommand stem args = some cmd) :
    cmd = stem ++ joinQuoted args ++ "\"" := by
  unfold buildCommand at h
  split at h
  · exact absurd h (by simp)
  · split at h
    · exact absurd h (by simp)
    · rename_i c hc
      split at h
      · exact absurd h (by simp)
      · obtain rfl : c ++ "\"" = cmd := Option.some.inj h
        rw [appendArgs_some args stem c hc]

/-! ### Field lemmas for the spawn phase -/

theorem spawnPhase_fields (env : Env) (cmd : String) (t : Bool) :
    (spawnPhase env cmd t).popenCmd = some cmd ∧
    (spawnPhase env cmd t).stdinConsumed = t ∧
    (spawnPhase env cmd t).tempCreated = t ∧
    (spawnPhase env cmd t).tempRemoved = t := by
  unfold spawnPhase
  split
  · exact ⟨rfl, rfl, rfl, rfl⟩
  · split
    · exact ⟨rfl, rfl, rfl, rfl⟩
    · split
      · exact ⟨rfl, rfl, rfl, rfl⟩
      · exact ⟨rfl, rfl, rfl, rfl⟩

theorem spawnPhase_exit (env : Env) (cmd : String) (t : Bool) :
    (spawnPhase env cmd t).exitCode = EXIT_FAILURE ∨
      (spawnPhase env cmd t).exitCode = env.childExit := by
  unfold spawnPhase
  split
  · exact Or.inl rfl
  · split
    · exact Or.inl rfl
    · split
      · exact Or.inl rfl
      · exact Or.inr rfl

theorem spawnPhase_events (env : Env) (cmd : String) (t : Bool) :
    (spawnPhase env cmd t).events = [Event.errOut "Error: Failed to execute PowerShell\n"] ∨
    (spawnPhase env cmd t).events = (outputLoop env.childLines env.stdoutFailAt).1 ∨
    (spawnPhase env cmd t).events =
      (outputLoop env.childLines env.stdoutFailAt).1 ++
        [Event.errOut "Error: Failed to read output from PowerShell\n"] := by
  unfold spawnPhase
  split
  · exact Or.inl rfl
  · split
    · exact Or.inr (Or.inl rfl)
    · split
      · exact Or.inr (Or.inr rfl)
      · exact Or.inr (Or.inl rfl)

/-! ### Properties of the output loop -/

theorem outputLoop_ok (ls : List String) :
    (outputLoop ls none).1 = ls.flatMap (fun l => [Event.out l, Event.flush]) ∧
    (outputLoop ls none).2 = false := by
  induction ls with
  | nil => exact ⟨rfl, rfl⟩
  | cons l rest ih => simpa [outputLoop] using ih

theorem outputLoop_fail (ls : List String) :
    ∀ i : Nat, i < ls.length →
      (outputLoop ls (some i)).2 = true ∧
      countOut (outputLoop ls (some i)).1 = i ∧
      (outputLoop ls (some i)).1.getLast? =
        some (Event.errOut "Error: Failed to write output to stdout\n") := by
  induction ls with
  | nil => intro i hi; simp at hi
  | cons l rest ih =>
    intro i hi
    match i with
    | 0 => exact ⟨rfl, rfl, rfl⟩
    | Nat.succ n =>
      have hn : n < rest.length := by simpa using hi
      obtain ⟨h1, h2, h3⟩ := ih n hn
      refine ⟨by simpa [outputLoop] using h1, ?_, ?_⟩
      · simpa [outputLoop, countOut] using h2
      · rcases hr : (outputLoop rest (some n)).1 with _ | ⟨e, tl⟩
        · rw [hr] at h3; simp at h3
        · rw [hr] at h3
          simp only [outputLoop, hr]
          rw [List.getLast?_cons_cons, List.getLast?_cons_cons]
          exact h3

theorem flushedStream_outputLoop_append (tail : List Event)
    (ht : flushedStream tail = true) (ls : List String) :
    ∀ failAt : Option Nat, flushedStream ((outputLoop ls failAt).1 ++ tail) = true := by
  induction ls with
  | nil => intro failAt; simpa [outputLoop] using ht
  | cons l rest ih =>
    intro failAt
    match failAt with
    | some 0 => simpa [outputLoop, flushedStream] using ht
    | some (n + 1) => simpa [outputLoop, flushedStream] using ih (some n)
    | none => simpa [outputLoop, flushedStream] using ih none

theorem out_mem_outputLoop (s : String) (ls : List String) :
    ∀ failAt : Option Nat, Event.out s ∈ (outputLoop ls failAt).1 → s ∈ ls := by
  induction ls with
  | nil => intro failAt h; simp [outputLoop] at h
  | cons l rest ih =>
    intro failAt h
    match failAt with
    | some 0 => simp [outputLoop] at h
    | some (n + 1) =>
      simp only [outputLoop, List.mem_cons] at h
      rcases h with h | h | h
      · rw [Event.out.inj h]; exact List.mem_cons_self l rest
      · exact absurd h (by simp)
      · exact List.mem_cons_of_mem l (ih (some n) h)
    | none =>
      simp only [outputLoop, List.mem_cons] at h
      rcases h with h | h | h
      · rw [Event.out.inj h]; exact List.mem_cons_self l rest
      · exact absurd h (by simp)
      · exact List.mem_cons_of_mem l (ih none h)

/-! ### Events of lists of diagnostics -/

theorem flushedStream_of_errOnly (l : List Event)
    (h : ∀ e ∈ l, isErrOut e = true) : flushedStream l = true := by
  induction l with
  | nil => rfl
  | cons e rest ih =>
    have he := h e (List.mem_cons_self e rest)
    match e, he with
    | Event.errOut s, _ =>
      simpa [flushedStream] using ih fun x hx => h x (List.mem_cons_of_mem _ hx)

theorem out_not_mem_errOnly (l : List Event) (h : ∀ e ∈ l, isErrOut e = true)
    (s : String) : Event.out s ∉ l := by
  intro hm
  have := h _ hm
  simp [isErrOut] at this

theorem usageEvents_errOnly (p : String) :
    ∀ e ∈ usageEvents p, isErrOut e = true := by
  intro e he
  simp only [usageEvents, List.mem_cons, List.not_mem_nil, or_false] at he
  rcases he with rfl | rfl | rfl | rfl | rfl | rfl <;> rfl

theorem psMissingEvents_errOnly :
    ∀ e ∈ psMissingEvents, isErrOut e = true := by
  intro e he
  simp only [psMissingEvents, List.mem_cons, List.not_mem_nil, or_false] at he
  rcases he with rfl | rfl | rfl | rfl | rfl | rfl | rfl <;> rfl

/-! ### Stage lemmas for the piped-stdin branch -/

theorem pipedStage_temp (env : Env) :
    (pipedStage env).tempRemoved = (pipedStage env).tempCreated := by
  unfold pipedStage
  split
  · rfl
  · split
    · rfl
    · split
      · rfl
      · rfl
      · split
        · rfl
        · rw [spawnPhase_fields env _ true |>.2.2.2, spawnPhase_fields env _ true |>.2.2.1]

theorem pipedStage_consumed (env : Env) (h1 : env.tempnamOk = true)
    (h2 : env.fopenOk = true) : (pipedStage env).stdinConsumed = true := by
  unfold pipedStage
  rw [h1, h2]
  simp only [Bool.not_true, Bool.false_eq_true, if_false]
  split
  · rfl
  · rfl
  · split
    · rfl
    · exact spawnPhase_fields env _ true |>.2.1

theorem pipedStage_flushed (env : Env) : flushedStream (pipedStage env).events = true := by
  unfold pipedStage
  split
  · rfl
  · split
    · rfl
    · split
      · rfl
      · rfl
      · split
        · rfl
        · rcases spawnPhase_events env _ true with h | h | h <;> rw [h]
          · rfl
          · simpa using flushedStream_outputLoop_append [] rfl env.childLines
              env.stdoutFailAt
          · exact flushedStream_outputLoop_append
              [Event.errOut "Error: Failed to read output from PowerShell\n"] rfl
              env.childLines env.stdoutFailAt

theorem pipedStage_out_mem (env : Env) (s : String)
    (h : Event.out s ∈ (pipedStage env).events) : s ∈ env.childLines := by
  unfold pipedStage at h
  split at h
  · simp at h
  · split at h
    · simp at h
    · split at h
      · simp at h
      · simp at h
      · split at h
        · simp at h
        · rcases spawnPhase_events env _ true with he | he | he <;> rw [he] at h
          · simp at h
          · exact out_mem_outputLoop s env.childLines env.stdoutFailAt h
          · rcases List.mem_append.1 h with h | h
            · exact out_mem_outputLoop s env.childLines env.stdoutFailAt h
            · simp at h

theorem pipedStage_exit (env : Env) :
    (pipedStage env).exitCode = EXIT_FAILURE ∨
      (pipedStage env).exitCode = env.childExit := by
  unfold pipedStage
  split
  · exact Or.inl rfl
  · split
    · exact Or.inl rfl
    · split
      · exact Or.inl rfl
      · exact Or.inl rfl
      · split
        · exact Or.inl rfl
        · exact spawnPhase_exit env _ true

theorem spawnPhase_flushed (env : Env) (cmd : String) (t : Bool) :
    flushedStream (spawnPhase env cmd t).events = true := by
  rcases spawnPhase_events env cmd t with h | h | h <;> rw [h]
  · rfl
  · simpa using flushedStream_outputLoop_append [] rfl env.childLines env.stdoutFailAt
  · exact flushedStream_outputLoop_append
      [Event.errOut "Error: Failed to read output from PowerShell\n"] rfl
      env.childLines env.stdoutFailAt

theorem spawnPhase_out_mem (env : Env) (cmd : String) (t : Bool) (s : String)
    (h : Event.out s ∈ (spawnPhase env cmd t).events) : s ∈ env.childLines := by
  rcases spawnPhase_events env cmd t with he | he | he <;> rw [he] at h
  · simp at h
  · exact out_mem_outputLoop s env.childLines env.stdoutFailAt h
  · rcases List.mem_append.1 h with h | h
    · exact out_mem_outputLoop s env.childLines env.stdoutFailAt h
    · simp at h

/-! ### The run path once the four `argv[1]` checks and the PowerShell
check have passed -/

theorem run_main_path (env : Env) (a1 : String) (rest : List String)
    (harg : env.args = a1 :: rest) (hspec : specialArg a1 = false)
    (hps : env.psAvailable = true) :
    run env =
      match buildCommand (if env.stdinPiped then pipedHead else directHead) env.args with
      | none =>
        { events := [Event.errOut "Error: Command string too long\n"],
          exitCode := EXIT_FAILURE, popenCmd := none, stdinConsumed := false,
          tempCreated := false, tempRemoved := false }
      | some cmd0 =>
        if env.stdinPiped then pipedStage env else spawnPhase env cmd0 false := by
  have h1 : ¬(a1 = "--help" ∨ a1 = "-h") := by
    intro hc; rcases hc with rfl | rfl <;> simp [specialArg] at hspec
  have h2 : ¬(a1 = "--version" ∨ a1 = "-v") := by
    intro hc; rcases hc with rfl | rfl <;> simp [specialArg] at hspec
  simp only [run, harg]
  rw [if_neg h1, if_neg h2, if_neg (by rw [hps]; simp)]

theorem run_reaches (env : Env) (h : reachesSpawn env = true) :
    ∃ cmd, run env = spawnPhase env cmd env.stdinPiped := by
  rcases harg : env.args with _ | ⟨a1, rest⟩
  · simp only [reachesSpawn, harg] at h
    exact absurd h (by simp)
  · simp only [reachesSpawn, harg, Bool.and_eq_true, Bool.or_eq_true,
      decide_eq_true_eq] at h
    obtain ⟨⟨⟨⟨hspec, hps⟩, hb1⟩, hpip⟩, hspawn⟩ := h
    have hspec' : specialArg a1 = false := by simpa using hspec
    rw [run_main_path env a1 rest harg hspec' hps, harg]
    rcases hb : buildCommand (if env.stdinPiped then pipedHead else directHead)
        (a1 :: rest) with _ | cmd0
    · rw [hb] at hb1; simp at hb1
    · simp only [hb]
      rcases hp : env.stdinPiped with _ | _
      · exact ⟨cmd0, by simp⟩
      · rcases hpip with hfalse | hcond
        · rw [hp] at hfalse; simp at hfalse
        · obtain ⟨⟨⟨htn, hfo⟩, hco⟩, hb2⟩ := hcond
          rcases hb2' : buildCommand (tempHead env.tempPath) (a1 :: rest) with _ | c
          · rw [hb2'] at hb2; simp at hb2
          · refine ⟨c, ?_⟩
            rw [if_pos rfl]
            unfold pipedStage
            rw [htn, hfo, hco, harg]
            rw [if_neg (by simp), if_neg (by simp)]
            simp only [hb2']

theorem reachesSpawn_spawnOk (env : Env) (h : reachesSpawn env = true) :
    env.spawnOk = true := by
  rcases harg : env.args with _ | ⟨a1, rest⟩
  · simp only [reachesSpawn, harg] at h
    exact absurd h (by simp)
  · simp only [reachesSpawn, harg, Bool.and_eq_true] at h
    exact h.2

theorem run_exit_cases (env : Env) :
    (run env).exitCode = EXIT_SUCCESS ∨ (run env).exitCode = EXIT_FAILURE ∨
      (run env).exitCode = env.childExit := by
  unfold run
  split
  · exact Or.inr (Or.inl rfl)
  · split
    · exact Or.inl rfl
    · split
      · exact Or.inl rfl
      · split
        · exact Or.inr (Or.inl rfl)
        · split
          · exact Or.inr (Or.inl rfl)
          · split
            · rcases pipedStage_exit env with h | h
              · exact Or.inr (Or.inl h)
              · exact Or.inr (Or.inr h)
            · rcases spawnPhase_exit env _ false with h | h
              · exact Or.inr (Or.inl h)
              · exact Or.inr (Or.inr h)

theorem run_popenCmd_closed (env : Env) (cmd : String)
    (h : (run env).popenCmd = some cmd) :
    cmd = (if env.stdinPiped then tempHead env.tempPath else directHead) ++
      joinQuoted env.args ++ "\"" := by
  unfold run at h
  split at h
  · simp at h
  · split at h
    · simp at h
    · split at h
      · simp at h
      · split at h
        · simp at h
        · split at h
          · simp at h
          · rename_i cmd0 hb
            split at h
            · rename_i hp
              unfold pipedStage at h
              split at h
              · simp at h
              · split at h
                · simp at h
                · split at h
                  · simp at h
                  · simp at h
                  · split at h
                    · simp at h
                    · rename_i c hb2
                      rw [(spawnPhase_fields env c true).1] at h
                      obtain rfl := Option.some.inj h
                      rw [if_pos hp]
                      exact buildCommand_some _ _ _ hb2
            · rename_i hp
              rw [(spawnPhase_fields env cmd0 false).1] at h
              obtain rfl := Option.some.inj h
              have hp' : env.stdinPiped = false := by
                revert hp; cases env.stdinPiped <;> simp
              rw [hp'] at hb
              rw [if_neg (by rw [hp']; simp)]
              exact buildCommand_some _ _ _ hb

theorem joinQuoted_eq_foldr (as : List String) :
    joinQuoted as = as.foldr (fun a acc =>
      (if a.data.contains ' ' then " '" ++ a ++ "'" else " " ++ a) ++ acc) "" := by
  induction as with
  | nil => rfl
  | cons a rest ih => simp only [joinQuoted, quoteArg, List.foldr_cons, ih]

theorem quoteArg_infix_joinQuoted (a : String) (as : List String) (ha : a ∈ as) :
    List.IsInfix (quoteArg a).data (joinQuoted as).data := by
  induction as with
  | nil => simp at ha
  | cons b rest ih =>
    rcases List.mem_cons.1 ha with rfl | ha'
    · rw [joinQuoted, String.data_append]
      exact (List.prefix_append _ _).isInfix
    · rw [joinQuoted, String.data_append]
      exact (ih ha').trans (List.suffix_append _ _).isInfix

/-! ### The claims -/

/-- C1 (counterexample): the claim's exit-code mapping says a usage error
exits with status 2; on the concrete no-argument run the program exits
with `EXIT_FAILURE` (1), not 2. -/
theorem C1_counterexample :
    envUsage.args = [] ∧ (run envUsage).exitCode = 1 ∧
      ¬ (run envUsage).exitCode = 2 := by
  refine ⟨rfl, rfl, ?_⟩
  decide

/-- C1 (amended): the wrapper never produces an exit status of its own
other than 0 (`EXIT_SUCCESS`, help/version) and 1 (`EXIT_FAILURE`, every
usage or I/O error) — in all other runs it returns the external command's
exit status unchanged: a usage error exits 1 (not 2), and a run that
reaches the external command and hits no output/read failure exits with
exactly the child's status, so the 0-on-match/1-on-no-match mapping holds
only insofar as the external command implements it. -/
theorem C1_exit_status (env : Env) :
    ((run env).exitCode = EXIT_SUCCESS ∨ (run env).exitCode = EXIT_FAILURE ∨
      (run env).exitCode = env.childExit) ∧
    (env.args = [] → (run env).exitCode = EXIT_FAILURE) ∧
    (reachesSpawn env = true → env.stdoutFailAt = none → env.childReadErr = false →
      (run env).exitCode = env.childExit) := by
  refine ⟨run_exit_cases env, ?_, ?_⟩
  · intro he
    simp only [run, he]
  · intro hr hf hc
    obtain ⟨cmd, hrun⟩ := run_reaches env hr
    rw [hrun]
    unfold spawnPhase
    rw [reachesSpawn_spawnOk env hr, hf]
    rw [if_neg (by simp), if_neg (by rw [(outputLoop_ok env.childLines).2]; simp),
      if_neg (by rw [hc]; simp)]

/-- C1 (witness): the amended statement applied to the concrete
no-argument run. -/
theorem C1_exit_status_witness : (run envUsage).exitCode = EXIT_FAILURE :=
  (C1_exit_status envUsage).2.1 rfl

/-- C2 (counterexample): path arguments are present (`file.txt`) and yet
the run consumes standard input, because stdin is piped — refuting
"standard input is consumed if and only if no path arguments are
given". -/
theorem C2_counterexample :
    envPiped.args = ["pat", "file.txt"] ∧ envPiped.stdinPiped = true ∧
      (run envPiped).stdinConsumed = true := by
  refine ⟨rfl, rfl, ?_⟩
  decide

/-- C2 (amended): standard input is consumed exactly when stdin is
detected as piped (`!_isatty`), independent of whether path arguments are
present: once the run passes the argument and PowerShell checks, the
first command build fits, and the temp-file name and open succeed, the
stdin copy loop runs iff stdin is piped. -/
theorem C2_stdin_iff_piped (env : Env)
    (h1 : env.args ≠ []) (h2 : specialArg (env.args.headD "") = false)
    (h3 : env.psAvailable = true) (h4 : env.tempnamOk = true)
    (h5 : env.fopenOk = true)
    (h6 : (buildCommand (if env.stdinPiped then pipedHead else directHead)
      env.args).isSome = true) :
    (run env).stdinConsumed = env.stdinPiped := by
  rcases harg : env.args with _ | ⟨a1, rest⟩
  · exact absurd harg h1
  · rw [harg] at h2
    simp only [List.headD_cons] at h2
    rw [run_main_path env a1 rest harg h2 h3, harg]
    rw [harg] at h6
    rcases hb : buildCommand (if env.stdinPiped then pipedHead else directHead)
        (a1 :: rest) with _ | cmd0
    · rw [hb] at h6; simp at h6
    · simp only [hb]
      rcases hp : env.stdinPiped with _ | _
      · rw [if_neg (by simp)]
        exact (spawnPhase_fields env cmd0 false).2.1
      · rw [if_pos rfl]
        exact pipedStage_consumed env h4 h5

/-- C2 (witness): the amended statement applied to the concrete piped run
with a file argument. -/
theorem C2_stdin_iff_piped_witness :
    (run envPiped).stdinConsumed = envPiped.stdinPiped :=
  C2_stdin_iff_piped envPiped (by decide) (by decide) rfl rfl rfl (by decide)

/-- C3 (counterexample): on the concrete no-argument run the usage text
does go to the error stream and nothing to the output stream, but the
exit status is 1 (`EXIT_FAILURE`), not the claimed 2. -/
theorem C3_counterexample :
    (run envUsage).events = usageEvents "Select-String" ∧
      (run envUsage).exitCode = 1 ∧ ¬ (run envUsage).exitCode = 2 := by
  refine ⟨rfl, rfl, ?_⟩
  decide

/-- C3 (amended): on a usage error (no argument at all — the only usage
error the program detects; bad flags are forwarded, not diagnosed) the
program prints the usage text to the error stream only, writes nothing to
the output stream, never spawns the search command, and exits 1
(`EXIT_FAILURE`), not 2. -/
theorem C3_usage_error (env : Env) (h : env.args = []) :
    (run env).events = usageEvents env.progName ∧
    (∀ e ∈ (run env).events, isErrOut e = true) ∧
    (run env).exitCode = EXIT_FAILURE ∧
    (run env).popenCmd = none := by
  have hr : run env =
      { events := usageEvents env.progName, exitCode := EXIT_FAILURE,
        popenCmd := none, stdinConsumed := false, tempCreated := false,
        tempRemoved := false } := by
    simp only [run, h]
  rw [hr]
  exact ⟨rfl, usageEvents_errOnly env.progName, rfl, rfl⟩

/-- C3 (witness): the amended statement applied to the concrete
no-argument run. -/
theorem C3_usage_error_witness :
    (run envUsage).events = usageEvents envUsage.progName ∧
    (∀ e ∈ (run envUsage).events, isErrOut e = true) ∧
    (run envUsage).exitCode = EXIT_FAILURE ∧
    (run envUsage).popenCmd = none :=
  C3_usage_error envUsage rfl

/-- C4 (counterexample): on the concrete run with `-v` first, the program
prints the version line and exits 0 without ever invoking any search —
`-v` is the version alias here, not invert-match, and no line-selection
(inverted or otherwise) exists in the program. -/
theorem C4_counterexample :
    envVersion.args = ["-v", "pat"] ∧
    (run envVersion).events = [Event.out versionLine] ∧
    (run envVersion).exitCode = 0 ∧
    (run envVersion).popenCmd = none := ⟨rfl, rfl, rfl, rfl⟩

/-- C4 (amended): `-v` as the first argument is the version flag: the
program prints the version line to stdout and exits 0, consuming no input
and spawning no search command; the wrapper implements no invert-match
behaviour of its own (any `-v` in a later position is merely forwarded,
see C10). -/
theorem C4_dash_v_is_version (env : Env) (h : env.args.head? = some "-v") :
    (run env).events = [Event.out versionLine] ∧
    (run env).exitCode = EXIT_SUCCESS ∧
    (run env).popenCmd = none ∧
    (run env).stdinConsumed = false := by
  rcases harg : env.args with _ | ⟨a1, rest⟩
  · rw [harg] at h; simp at h
  · rw [harg] at h
    simp only [List.head?_cons, Option.some.injEq] at h
    subst h
    simp only [run, harg]
    rw [if_neg (by decide), if_pos (by decide)]
    exact ⟨rfl, rfl, rfl, rfl⟩

/-- C4 (witness): the amended statement applied to the concrete run with
`-v` first. -/
theorem C4_dash_v_is_version_witness :
    (run envVersion).events = [Event.out versionLine] ∧
    (run envVersion).exitCode = EXIT_SUCCESS ∧
    (run envVersion).popenCmd = none ∧
    (run envVersion).stdinConsumed = false :=
  C4_dash_v_is_version envVersion rfl

/-- C5 (counterexample): the exit code on an output-write failure is 1 —
the very same `EXIT_FAILURE` returned for a usage error (and for every
I/O error), so it is not a distinct code. -/
theorem C5_counterexample :
    (run envOutFail).exitCode = 1 ∧ (run envUsage).exitCode = 1 := by
  constructor
  · decide
  · rfl

/-- C5 (amended): on a failure writing to the output sink the program
does stop immediately — exactly the lines before the failing one were
written (each followed by its flush), the last event is the single stderr
diagnostic, there is no retry — and it exits non-zero, but with
`EXIT_FAILURE` (1), the same code used for usage and I/O errors, not a
distinct one. -/
theorem C5_output_error (env : Env) (i : Nat)
    (hr : reachesSpawn env = true) (hf : env.stdoutFailAt = some i)
    (hi : i < env.childLines.length) :
    (run env).exitCode = EXIT_FAILURE ∧
    countOut (run env).events = i ∧
    (run env).events.getLast? =
      some (Event.errOut "Error: Failed to write output to stdout\n") := by
  obtain ⟨cmd, hrun⟩ := run_reaches env hr
  obtain ⟨h1, h2, h3⟩ := outputLoop_fail env.childLines i hi
  rw [hrun]
  unfold spawnPhase
  rw [reachesSpawn_spawnOk env hr, hf]
  rw [if_neg (by simp), if_pos h1]
  exact ⟨rfl, h2, h3⟩

/-- C5 (witness): the amended statement applied to the concrete run whose
second output line fails to write. -/
theorem C5_output_error_witness :
    (run envOutFail).exitCode = EXIT_FAILURE ∧
    countOut (run envOutFail).events = 1 ∧
    (run envOutFail).events.getLast? =
      some (Event.errOut "Error: Failed to write output to stdout\n") :=
  C5_output_error envOutFail 1 (by decide) rfl (by decide)

/-- C6: result output is streamed — in every run other than a version run
(whose single stdout line is the version text, printed without an
explicit flush), every line written to stdout is immediately followed by
a flush of stdout, so no more than the line being produced is ever held
unflushed. -/
theorem C6_streaming (env : Env)
    (h1 : env.args.head? ≠ some "--version") (h2 : env.args.head? ≠ some "-v") :
    flushedStream (run env).events = true := by
  rcases harg : env.args with _ | ⟨a1, rest⟩
  · simp only [run, harg]
    exact flushedStream_of_errOnly _ (usageEvents_errOnly env.progName)
  · rw [harg] at h1 h2
    simp only [List.head?_cons, ne_eq, Option.some.injEq] at h1 h2
    simp only [run, harg]
    split
    · exact flushedStream_of_errOnly _ (usageEvents_errOnly env.progName)
    · split
      · rename_i hv
        rcases hv with hv | hv
        · exact absurd hv h1
        · exact absurd hv h2
      · split
        · exact flushedStream_of_errOnly _ psMissingEvents_errOnly
        · split
          · rfl
          · split
            · exact pipedStage_flushed env
            · exact spawnPhase_flushed env _ false

/-- C6 (witness): the streaming property applied to the concrete plain
run. -/
theorem C6_streaming_witness : flushedStream (run envPlain).events = true :=
  C6_streaming envPlain (by decide) (by decide)

/-- C7: stream separation — the only strings a run ever writes to the
output stream are the version line and lines received from the search
command's output; every diagnostic (usage text, PowerShell-missing text,
and each error message) goes to the error stream. -/
theorem C7_stream_separation (env : Env) (s : String)
    (h : Event.out s ∈ (run env).events) : s = versionLine ∨ s ∈ env.childLines := by
  unfold run at h
  split at h
  · exact absurd h (out_not_mem_errOnly _ (usageEvents_errOnly env.progName) s)
  · split at h
    · exact absurd h (out_not_mem_errOnly _ (usageEvents_errOnly env.progName) s)
    · split at h
      · rw [List.mem_singleton] at h
        exact Or.inl (Event.out.inj h)
      · split at h
        · exact absurd h (out_not_mem_errOnly _ psMissingEvents_errOnly s)
        · split at h
          · simp at h
          · split at h
            · exact Or.inr (pipedStage_out_mem env s h)
            · exact Or.inr (spawnPhase_out_mem env _ false s h)

/-- C7 (witness): the separation property applied to the concrete version
run and its one stdout line. -/
theorem C7_stream_separation_witness :
    versionLine = versionLine ∨ versionLine ∈ envVersion.childLines :=
  C7_stream_separation envVersion versionLine (by decide)

/-- C8: the temporary file capturing piped stdin is removed on every
return path that follows its creation — in every run, `remove` was called
if and only if the file was created, so no run terminates leaving the
temp file behind. -/
theorem C8_temp_file_cleanup (env : Env) :
    (run env).tempRemoved = (run env).tempCreated := by
  unfold run
  split
  · rfl
  · split
    · rfl
    · split
      · rfl
      · split
        · rfl
        · split
          · rfl
          · split
            · exact pipedStage_temp env
            · rw [(spawnPhase_fields env _ false).2.2.2,
                (spawnPhase_fields env _ false).2.2.1]

/-- C9: the command handed to `_popen` is exactly the stem (the
`Get-Content`-from-temp-file stem when stdin is piped, the direct stem
otherwise) followed by every argument in order — each one preceded by a
space and wrapped in single quotes if and only if it contains a space
character, its own characters copied verbatim with no escaping — and the
closing double quote. -/
theorem C9_argument_quoting (env : Env) (cmd : String)
    (h : (run env).popenCmd = some cmd) :
    cmd = (if env.stdinPiped then tempHead env.tempPath else directHead) ++
      (env.args.foldr (fun a acc =>
        (if a.data.contains ' ' then " '" ++ a ++ "'" else " " ++ a) ++ acc) "") ++
      "\"" := by
  rw [run_popenCmd_closed env cmd h, joinQuoted_eq_foldr]

/-- C9 (witness): the quoting law applied to the concrete run with the
arguments `pat` and `a b`. -/
theorem C9_argument_quoting_witness :
    directHead ++ " pat 'a b'" ++ "\"" =
      (if envPlain.stdinPiped then tempHead envPlain.tempPath else directHead) ++
        (envPlain.args.foldr (fun a acc =>
          (if a.data.contains ' ' then " '" ++ a ++ "'" else " " ++ a) ++ acc) "") ++
        "\"" :=
  C9_argument_quoting envPlain (directHead ++ " pat 'a b'" ++ "\"") (by decide)

/-- C10: `-h`/`--help` and `-v`/`--version` are special only in the first
argument position — there they print the help or version text and exit 0
without spawning any search — while in any later position they are
forwarded like every other argument: whenever a command is spawned, each
argument's quoted rendering occurs verbatim inside the command string. -/
theorem C10_first_position_flags (env : Env) :
    ((env.args.head? = some "-h" ∨ env.args.head? = some "--help") →
      (run env).events = usageEvents env.progName ∧
      (run env).exitCode = EXIT_SUCCESS ∧ (run env).popenCmd = none) ∧
    ((env.args.head? = some "-v" ∨ env.args.head? = some "--version") →
      (run env).events = [Event.out versionLine] ∧
      (run env).exitCode = EXIT_SUCCESS ∧ (run env).popenCmd = none) ∧
    (∀ cmd, (run env).popenCmd = some cmd →
      ∀ a ∈ env.args, List.IsInfix (quoteArg a).data cmd.data) := by
  refine ⟨?_, ?_, ?_⟩
  · intro h
    rcases harg : env.args with _ | ⟨a1, rest⟩
    · rw [harg] at h; simp at h
    · rw [harg] at h
      simp only [List.head?_cons, Option.some.injEq] at h
      have hc : a1 = "--help" ∨ a1 = "-h" := by tauto
      simp only [run, harg]
      rw [if_pos hc]
      exact ⟨rfl, rfl, rfl⟩
  · intro h
    rcases harg : env.args with _ | ⟨a1, rest⟩
    · rw [harg] at h; simp at h
    · rw [harg] at h
      simp only [List.head?_cons, Option.some.injEq] at h
      have hv : a1 = "--version" ∨ a1 = "-v" := by tauto
      have hnh : ¬(a1 = "--help" ∨ a1 = "-h") := by
        rcases hv with rfl | rfl <;> decide
      simp only [run, harg]
      rw [if_neg hnh, if_pos hv]
      exact ⟨rfl, rfl, rfl⟩
  · intro cmd h a ha
    rw [run_popenCmd_closed env cmd h, String.data_append, String.data_append]
    exact (quoteArg_infix_joinQuoted a env.args ha).trans
      (List.infix_append _ _ _)

/-- C10 (witness): `-h` in the second position of the concrete run is
forwarded into the spawned command verbatim. -/
theorem C10_first_position_flags_witness :
    List.IsInfix (quoteArg "-h").data (directHead ++ " pat -h" ++ "\"").data :=
  (C10_first_position_flags envLateFlag).2.2 (directHead ++ " pat -h" ++ "\"")
    (by decide) "-h" (by decide)

end SelectString
